import Mathlib

/-!
Shallow embedding of the MENTORA progression and persisted-state engine
(src/script.js).

Modelling conventions:
* A calendar date (the `YYYY-MM-DD` strings produced by `todayISO`) is
  represented by its day number as an `Int`; the JS expression
  `Math.round((todayD - lastD) / 86400000)` on two local midnights equals the
  difference of day numbers, and string equality of canonical ISO dates equals
  day-number equality.
* JS objects used as dictionaries (`courseProgress`, `courseRoadmapDone`,
  `community.likes`, `community.comments`, `codingDrafts`) are association
  lists over `String` keys; `smGet?` is property lookup (absent key reads as
  `undefined`) and `smSet` is property assignment.
* `null`/`undefined`/absent values are `Option.none`.
* JS numbers are `Int` (all engine arithmetic is integer-valued) except the
  rank percentage and rounding intermediates, which are exact rationals `ℚ`
  with `Math.round x = ⌊x + 1/2⌋`.
* `x || 0` on a number is `jsOr0`; on an object/array it is `Option.getD`.
-/

/-- Association-list lookup: JS property read `m[k]` (`none` = `undefined`). -/
def smGet? {β : Type} : List (String × β) → String → Option β
  | [], _ => none
  | (k', v) :: t, k => if k' = k then some v else smGet? t k

/-- Association-list update: JS property write `m[k] = v`. -/
def smSet {β : Type} : List (String × β) → String → β → List (String × β)
  | [], k, v => [(k, v)]
  | (k', v') :: t, k, v => if k' = k then (k, v) :: t else (k', v') :: smSet t k v

/-- `n || 0` on a JS number (0 is falsy, every other integer is truthy). -/
def jsOr0 (n : Int) : Int := if n = 0 then 0 else n

/-- `clamp` from src/script.js: `Math.max(min, Math.min(max, n))`. -/
def clamp {α : Type} [LinearOrder α] (n mn mx : α) : α := max mn (min mx n)

/-- JS `String.prototype.trim`: strip leading and trailing whitespace. -/
def jsTrim (s : String) : String :=
  String.mk (((s.data.dropWhile Char.isWhitespace).reverse.dropWhile Char.isWhitespace).reverse)

/-- JS `Math.round` on an exact rational: `⌊x + 1/2⌋` (half rounds up). -/
def jsRound (q : ℚ) : Int := ⌊q + 1/2⌋

/-- The `streak` sub-object: `{count, lastDate}`; `lastDate` is `none` when
absent/null (the falsy check `!last`). -/
structure StreakV where
  count : Int
  lastDate : Option Int
deriving DecidableEq

/-- The `assessment` sub-object: `{lastScore, lastTakenAt}` (both nullable). -/
structure AssessmentV where
  lastScore : Option Int
  lastTakenAt : Option Int
deriving DecidableEq

/-- The `community` sub-object as the engine operations use it:
`{likes, comments}`, both present. -/
structure CommunityState where
  likes : List (String × Int)
  comments : List (String × List String)
deriving DecidableEq

/-- A `community` object as it may occur in a stored document, where either
property can be missing (`undefined`). -/
structure StoredCommunity where
  likes : Option (List (String × Int))
  comments : Option (List (String × List String))
deriving DecidableEq

/-- The full learner state, the shape produced by `getDefaultState()`. -/
structure LearnerState where
  streak : StreakV
  xp : Int
  courseProgress : List (String × Int)
  selectedCourseId : Option String
  roadmapDone : List (String × Bool)
  courseRoadmapDone : List (String × List (String × Bool))
  assessment : AssessmentV
  codingDrafts : List (String × String)
  community : CommunityState
deriving DecidableEq

/-- `getDefaultState()` from src/script.js, with `todayISO()` passed in as the
current day number. -/
def getDefaultState (today : Int) : LearnerState :=
  { streak := { count := 1, lastDate := some today }
    xp := 120
    courseProgress := []
    selectedCourseId := none
    roadmapDone := []
    courseRoadmapDone := []
    assessment := { lastScore := none, lastTakenAt := none }
    codingDrafts := []
    community := { likes := [], comments := [] } }

/-- `bumpStreakIfNeeded(state)` from src/script.js, with `todayISO()` passed in
as the current day number. -/
def bumpStreakIfNeeded (state : LearnerState) (today : Int) : LearnerState :=
  match state.streak.lastDate with
  | none => { state with streak := { count := 1, lastDate := some today } }
  | some last =>
    if last = today then state
    else
      let diffDays := today - last
      if diffDays = 1 then
        { state with streak := { count := jsOr0 state.streak.count + 1, lastDate := some today } }
      else
        { state with streak := { count := 1, lastDate := some today } }

/-- A stored `streak` object: either property may be missing.  A present
`lastDate` key may itself hold `null` (inner `none`). -/
structure StoredStreak where
  count : Option Int
  lastDate : Option (Option Int)
deriving DecidableEq

/-- A stored state document as `loadLS(LS.state, null)` may return it: every
top-level property may be missing (a document saved by an older version). -/
structure StoredDoc where
  streak : Option StoredStreak
  xp : Option Int
  courseProgress : Option (List (String × Int))
  selectedCourseId : Option (Option String)
  roadmapDone : Option (List (String × Bool))
  courseRoadmapDone : Option (List (String × List (String × Bool)))
  assessment : Option AssessmentV
  codingDrafts : Option (List (String × String))
  community : Option StoredCommunity
deriving DecidableEq

/-- The result of `getState()`: all top-level properties of the default shape
are present, but a stored `community` object replaces the default wholesale,
so its sub-properties may still be missing. -/
structure MergedState where
  streak : StreakV
  xp : Int
  courseProgress : List (String × Int)
  selectedCourseId : Option String
  roadmapDone : List (String × Bool)
  courseRoadmapDone : List (String × List (String × Bool))
  assessment : AssessmentV
  codingDrafts : List (String × String)
  community : StoredCommunity
deriving DecidableEq

/-- View a full learner state as a merged state (every property present). -/
def LearnerState.toMerged (st : LearnerState) : MergedState :=
  { streak := st.streak
    xp := st.xp
    courseProgress := st.courseProgress
    selectedCourseId := st.selectedCourseId
    roadmapDone := st.roadmapDone
    courseRoadmapDone := st.courseRoadmapDone
    assessment := st.assessment
    codingDrafts := st.codingDrafts
    community := { likes := some st.community.likes, comments := some st.community.comments } }

/-- `getState()` from src/script.js: if nothing is stored, `getDefaultState()`;
otherwise the spread-merge
`{...getDefaultState(), ...st, streak: {...getDefaultState().streak, ...(st.streak || {})}}`.
A spread keeps the left value exactly when the right object lacks the key
(`Option.getD`); `st.streak || {}` is `Option.getD ⟨none, none⟩`. -/
def getState (today : Int) (stored : Option StoredDoc) : MergedState :=
  match stored with
  | none => (getDefaultState today).toMerged
  | some st =>
    let d := (getDefaultState today).toMerged
    let ss := st.streak.getD { count := none, lastDate := none }
    { streak :=
        { count := ss.count.getD d.streak.count
          lastDate := ss.lastDate.getD d.streak.lastDate }
      xp := st.xp.getD d.xp
      courseProgress := st.courseProgress.getD d.courseProgress
      selectedCourseId := st.selectedCourseId.getD d.selectedCourseId
      roadmapDone := st.roadmapDone.getD d.roadmapDone
      courseRoadmapDone := st.courseRoadmapDone.getD d.courseRoadmapDone
      assessment := st.assessment.getD d.assessment
      codingDrafts := st.codingDrafts.getD d.codingDrafts
      community := st.community.getD d.community }

/-- One row of the `levels` table in `computeRank`. -/
structure Level where
  name : String
  lmin : Int
  next : Option Int
deriving DecidableEq

/-- The fixed `levels` table of `computeRank`. -/
def levels : List Level :=
  [ { name := "Beginner", lmin := 0, next := some 300 },
    { name := "Intermediate", lmin := 300, next := some 700 },
    { name := "Advanced", lmin := 700, next := some 1200 },
    { name := "Pro", lmin := 1200, next := none } ]

/-- The result record of `computeRank`. -/
structure Rank where
  current : String
  next : Option Int
  rmin : Int
  pct : ℚ
deriving DecidableEq

/-- `computeRank(xp)` from src/script.js: scan the reversed table for the first
(highest) level with `xp >= l.min`, falling back to `levels[0]`; the progress
percentage is `clamp(((xp - min) / (next - min)) * 100, 0, 100)` unless the
level has no ceiling, in which case it is `100`. -/
def computeRank (xp : Int) : Rank :=
  let current := (levels.reverse.find? (fun l => decide (l.lmin ≤ xp))).getD
    { name := "Beginner", lmin := 0, next := some 300 }
  let pct : ℚ :=
    match current.next with
    | none => 100
    | some nx => clamp ((((xp : ℚ) - (current.lmin : ℚ)) / ((nx : ℚ) - (current.lmin : ℚ))) * 100) 0 100
  { current := current.name, next := current.next, rmin := current.lmin, pct := pct }

/-- The `lessonBtn.onclick` body in `setCoursePlayer`: bump the course's
progress by 10 (clamped to [0,100]) and add 15 XP. -/
def completeLessonStep (st : LearnerState) (courseId : String) : LearnerState :=
  let cur := clamp (jsOr0 ((smGet? st.courseProgress courseId).getD 0)) 0 100
  let updated := clamp (cur + 10) 0 100
  { st with
    courseProgress := smSet st.courseProgress courseId updated
    xp := jsOr0 st.xp + 15 }

/-- The `xpBtn.onclick` body in `setCoursePlayer`: add 25 XP. -/
def grantBonusXp (st : LearnerState) : LearnerState :=
  { st with xp := jsOr0 st.xp + 25 }

/-- The roadmap-step click handler in `renderCourseRoadmap`: flip
`courseRoadmapDone[cid][stepId]` (absent reads as false via `!!`), and add
30 XP only when the step was not done before the click. -/
def toggleRoadmapStep (st : LearnerState) (courseId stepId : String) : LearnerState :=
  let inner := (smGet? st.courseRoadmapDone courseId).getD []
  let currentDone := (smGet? inner stepId).getD false
  let inner' := smSet inner stepId (!currentDone)
  { st with
    courseRoadmapDone := smSet st.courseRoadmapDone courseId inner'
    xp := if currentDone then st.xp else jsOr0 st.xp + 30 }

/-- An MCQ or assessment question, reduced to the fields the engine reads. -/
structure Question where
  id : String
  answerIndex : Int
deriving DecidableEq

/-- The MCQ choice click handler in `renderMCQPractice`: on a correct choice
add 20 XP and persist; otherwise the state is untouched. -/
def answerMcq (st : LearnerState) (chosenIndex : Int) (q : Question) : LearnerState :=
  if chosenIndex = q.answerIndex then { st with xp := jsOr0 st.xp + 20 } else st

/-- The `saveBtn.onclick` body in `renderCodingPractice`: overwrite the draft
text for the selected question. -/
def saveCodingDraft (st : LearnerState) (questionId text : String) : LearnerState :=
  { st with codingDrafts := smSet st.codingDrafts questionId text }

/-- The like-button branch of the `renderCommunity` click handler:
`likes[id] = (likes[id] || 0) + 1`. -/
def toggleLike (st : LearnerState) (postId : String) : LearnerState :=
  { st with community :=
    { st.community with
      likes := smSet st.community.likes postId (jsOr0 ((smGet? st.community.likes postId).getD 0) + 1) } }

/-- The comment-button branch of the `renderCommunity` click handler: trim the
input; if the trimmed text is empty, return without touching anything;
otherwise append the trimmed text to `comments[id]` (created as `[]` when
absent). -/
def addComment (st : LearnerState) (postId text : String) : LearnerState :=
  let t := jsTrim text
  if t = "" then st
  else
    { st with community :=
      { st.community with
        comments := smSet st.community.comments postId (((smGet? st.community.comments postId).getD []) ++ [t]) } }

/-- The recorded answers of an assessment attempt: `assess_<id>` radio groups;
an absent key or a `some none` value is an unanswered question (`null`). -/
abbrev Answers := List (String × Option Int)

/-- `correct` as accumulated in `submitAssessment`: the number of questions
whose chosen value strictly equals (`===`) `q.answerIndex`. -/
def correctCount (questions : List Question) (answers : Answers) : Nat :=
  questions.countP (fun q => decide (((smGet? answers q.id).getD none) = some q.answerIndex))

/-- `scorePct` in `submitAssessment`:
`Math.round((correct / Math.max(1, questions.length)) * 100)`. -/
def scorePct (questions : List Question) (answers : Answers) : Int :=
  jsRound (((correctCount questions answers : ℚ) / (max 1 (questions.length) : ℚ)) * 100)

/-- `bonus` in `submitAssessment`: `Math.round((scorePct / 100) * 80)`. -/
def assessmentBonus (questions : List Question) (answers : Answers) : Int :=
  jsRound (((scorePct questions answers : ℚ) / 100) * 80)

/-- The state update performed by `submitAssessment` after its guard: set
`assessment.lastScore`/`lastTakenAt` and add the score-proportional bonus XP. -/
def recordAssessmentResult (st : LearnerState) (questions : List Question)
    (answers : Answers) (now : Int) : LearnerState :=
  { st with
    assessment := { lastScore := some (scorePct questions answers), lastTakenAt := some now }
    xp := jsOr0 st.xp + assessmentBonus questions answers }

/-- The module-level assessment session variables: `assessmentEndsAt` is
`null` while idle or after `stopTimer()`, and holds the deadline while
running. -/
structure Session where
  endsAt : Option Int
deriving DecidableEq

/-- `startAssessment` as far as the session variables go: `stopTimer()` then
`assessmentEndsAt = Date.now() + totalSeconds * 1000`. -/
def startAssessment (now totalSeconds : Int) : Session :=
  { endsAt := some (now + totalSeconds * 1000) }

/-- `stopTimer()`: clears the interval and nulls `assessmentEndsAt`. -/
def stopTimer (_sess : Session) : Session := { endsAt := none }

/-- `submitAssessment(isAuto)` from src/script.js, over the session variables
and the persisted state: `if (!assessmentEndsAt) return;` makes a second call
a no-op; otherwise `stopTimer()` runs, the score is computed and the updated
state is saved. -/
def submitAssessment (sess : Session) (st : LearnerState) (questions : List Question)
    (answers : Answers) (now : Int) : Session × LearnerState :=
  match sess.endsAt with
  | none => (sess, st)
  | some _ => (stopTimer sess, recordAssessmentResult st questions answers now)

/-- The engine operations of the progression engine, one per domain event
wired up in src/script.js. -/
inductive Op where
  | lesson (courseId : String)
  | bonus
  | toggleStep (courseId stepId : String)
  | mcq (chosenIndex : Int) (q : Question)
  | assess (questions : List Question) (answers : Answers) (now : Int)
  | draft (questionId text : String)
  | like (postId : String)
  | comment (postId text : String)

/-- Apply one engine operation to the persisted state. -/
def applyOp (op : Op) (st : LearnerState) : LearnerState :=
  match op with
  | .lesson courseId => completeLessonStep st courseId
  | .bonus => grantBonusXp st
  | .toggleStep courseId stepId => toggleRoadmapStep st courseId stepId
  | .mcq chosenIndex q => answerMcq st chosenIndex q
  | .assess questions answers now => recordAssessmentResult st questions answers now
  | .draft questionId text => saveCodingDraft st questionId text
  | .like postId => toggleLike st postId
  | .comment postId text => addComment st postId text

/-- Looking a step's done flag up the way `renderCourseRoadmap` does:
`!!((st.courseRoadmapDone[courseId] || {})[stepId])`. -/
def stepDone (st : LearnerState) (courseId stepId : String) : Bool :=
  (smGet? ((smGet? st.courseRoadmapDone courseId).getD []) stepId).getD false

/-- The comment thread of a post as `renderCommunity` reads it:
`comments[postId] || []`. -/
def commentsAt (st : LearnerState) (postId : String) : List String :=
  (smGet? st.community.comments postId).getD []

/-- Position of a tier name in the fixed order of the `levels` table. -/
def tierIdx (name : String) : Nat :=
  if name = "Beginner" then 0
  else if name = "Intermediate" then 1
  else if name = "Advanced" then 2
  else 3

/-! ### Helper lemmas -/

theorem jsOr0_eq (n : Int) : jsOr0 n = n := by
  unfold jsOr0; split <;> omega

theorem smGet?_smSet_self {β : Type} (m : List (String × β)) (k : String) (v : β) :
    smGet? (smSet m k v) k = some v := by
  induction m with
  | nil => simp [smSet, smGet?]
  | cons hd t ih =>
    obtain ⟨k', v'⟩ := hd
    by_cases h : k' = k <;> simp [smSet, smGet?, h, ih]

theorem bumpStreak_lastDate (s : LearnerState) (today : Int) :
    (bumpStreakIfNeeded s today).streak.lastDate = some today := by
  unfold bumpStreakIfNeeded
  cases h : s.streak.lastDate with
  | none => simp
  | some last =>
    by_cases hl : last = today
    · simp [hl, h]
    · by_cases hd : today - last = 1 <;> simp [hl, hd]

theorem bumpStreak_noop (s : LearnerState) (today : Int)
    (h : s.streak.lastDate = some today) : bumpStreakIfNeeded s today = s := by
  unfold bumpStreakIfNeeded
  rw [h]
  simp

theorem computeRank_current (x : Int) :
    (computeRank x).current =
      if 1200 ≤ x then "Pro"
      else if 700 ≤ x then "Advanced"
      else if 300 ≤ x then "Intermediate"
      else "Beginner" := by
  unfold computeRank levels
  by_cases h12 : 1200 ≤ x <;> by_cases h7 : 700 ≤ x <;> by_cases h3 : 300 ≤ x <;>
    by_cases h0 : 0 ≤ x <;>
      simp [List.find?, h12, h7, h3, h0]

theorem tierIdx_computeRank (x : Int) :
    tierIdx (computeRank x).current =
      if 1200 ≤ x then 3 else if 700 ≤ x then 2 else if 300 ≤ x then 1 else 0 := by
  rw [computeRank_current]
  split_ifs <;> simp [tierIdx]

/-! ### Claim theorems -/

/-- C2: `bumpStreakIfNeeded` sets `count = 1, lastDate = today` when
`lastDate` is absent; is a no-op when `lastDate` is already today (hence a
second call with the same `today` returns a state identical to the first);
increments `count` by exactly 1 when the whole-day difference is exactly 1;
resets `count` to 1 for any other difference; and sets `lastDate = today` in
every changing branch. -/
theorem bumpStreakIfNeeded_spec (st : LearnerState) (today last : Int) :
    (st.streak.lastDate = none →
      bumpStreakIfNeeded st today =
        { st with streak := { count := 1, lastDate := some today } }) ∧
    (st.streak.lastDate = some today → bumpStreakIfNeeded st today = st) ∧
    bumpStreakIfNeeded (bumpStreakIfNeeded st today) today = bumpStreakIfNeeded st today ∧
    (st.streak.lastDate = some last → last ≠ today → today - last = 1 →
      (bumpStreakIfNeeded st today).streak.count = st.streak.count + 1 ∧
      (bumpStreakIfNeeded st today).streak.lastDate = some today) ∧
    (st.streak.lastDate = some last → last ≠ today → today - last ≠ 1 →
      (bumpStreakIfNeeded st today).streak = { count := 1, lastDate := some today }) := by
  refine ⟨?_, ?_, ?_, ?_, ?_⟩
  · intro h
    unfold bumpStreakIfNeeded
    rw [h]
  · intro h
    exact bumpStreak_noop st today h
  · exact bumpStreak_noop _ today (bumpStreak_lastDate st today)
  · intro h hne hdiff
    unfold bumpStreakIfNeeded
    rw [h]
    simp [hne, hdiff, jsOr0_eq]
  · intro h hne hdiff
    unfold bumpStreakIfNeeded
    rw [h]
    simp [hne, hdiff]

/-- C2 witness: with `lastDate` = day 9 and `today` = day 10 the count goes
from 4 to 5; with `lastDate` = day 7 (3 days before) it resets to 1 with
`lastDate` = today. -/
theorem bumpStreakIfNeeded_spec_witness :
    (bumpStreakIfNeeded { getDefaultState 0 with streak := { count := 4, lastDate := some 9 } } 10).streak.count = 5 ∧
    (bumpStreakIfNeeded { getDefaultState 0 with streak := { count := 4, lastDate := some 7 } } 10).streak =
      { count := 1, lastDate := some 10 } := by
  have h1 := bumpStreakIfNeeded_spec
    { getDefaultState 0 with streak := { count := 4, lastDate := some 9 } } 10 9
  have h2 := bumpStreakIfNeeded_spec
    { getDefaultState 0 with streak := { count := 4, lastDate := some 7 } } 10 7
  constructor
  · have := (h1.2.2.2.1 rfl (by decide) (by decide)).1
    simpa using this
  · exact h2.2.2.2.2 rfl (by decide) (by decide)

/-- C4: the roadmap-step toggle flips the looked-up done flag, awards the
30 XP only on the false-to-true transition, restores the flag and awards the
XP exactly once when applied twice, and leaves every field other than `xp`
and `courseRoadmapDone` (in particular `courseProgress`) untouched. -/
theorem toggleRoadmapStep_spec (st : LearnerState) (courseId stepId : String) :
    stepDone (toggleRoadmapStep st courseId stepId) courseId stepId
      = !(stepDone st courseId stepId) ∧
    (toggleRoadmapStep st courseId stepId).xp
      = (if stepDone st courseId stepId then st.xp else st.xp + 30) ∧
    stepDone (toggleRoadmapStep (toggleRoadmapStep st courseId stepId) courseId stepId)
      courseId stepId = stepDone st courseId stepId ∧
    (toggleRoadmapStep (toggleRoadmapStep st courseId stepId) courseId stepId).xp
      = st.xp + 30 ∧
    (toggleRoadmapStep st courseId stepId).courseProgress = st.courseProgress ∧
    (toggleRoadmapStep st courseId stepId).streak = st.streak ∧
    (toggleRoadmapStep st courseId stepId).selectedCourseId = st.selectedCourseId ∧
    (toggleRoadmapStep st courseId stepId).roadmapDone = st.roadmapDone ∧
    (toggleRoadmapStep st courseId stepId).assessment = st.assessment ∧
    (toggleRoadmapStep st courseId stepId).codingDrafts = st.codingDrafts ∧
    (toggleRoadmapStep st courseId stepId).community = st.community ∧
    (toggleRoadmapStep (toggleRoadmapStep st courseId stepId) courseId stepId).courseProgress
      = st.courseProgress := by
  have hflip : stepDone (toggleRoadmapStep st courseId stepId) courseId stepId
      = !(stepDone st courseId stepId) := by
    simp [stepDone, toggleRoadmapStep, smGet?_smSet_self]
  have hflip2 : stepDone (toggleRoadmapStep (toggleRoadmapStep st courseId stepId) courseId stepId)
      courseId stepId = !(stepDone (toggleRoadmapStep st courseId stepId) courseId stepId) := by
    simp [stepDone, toggleRoadmapStep, smGet?_smSet_self]
  have hxp : ∀ s : LearnerState, (toggleRoadmapStep s courseId stepId).xp
      = (if stepDone s courseId stepId then s.xp else s.xp + 30) := by
    intro s
    simp [toggleRoadmapStep, stepDone, jsOr0_eq]
  refine ⟨hflip, hxp st, ?_, ?_, ?_, ?_, ?_, ?_, ?_, ?_, ?_, ?_⟩ <;>
    first
    | (rw [hflip2, hflip]; simp)
    | (try rw [hxp, hxp, hflip]); cases h : stepDone st courseId stepId <;> simp [h, toggleRoadmapStep]

/-- C8: `addComment` appends the trimmed text to `community.comments[postId]`
exactly when the text is non-empty after trimming; whitespace-only text is a
silent no-op leaving the entire state unchanged (the function is total, so no
error is ever raised). -/
theorem addComment_spec (st : LearnerState) (postId text : String) :
    (jsTrim text = "" → addComment st postId text = st) ∧
    (jsTrim text ≠ "" →
      commentsAt (addComment st postId text) postId
        = commentsAt st postId ++ [jsTrim text]) := by
  constructor
  · intro h
    simp [addComment, h]
  · intro h
    simp [addComment, h, commentsAt, smGet?_smSet_self]

/-- C8 witness: posting the whitespace-only comment `"   "` to `"p1"` on the
default state changes nothing, while `" hi "` appends `"hi"`. -/
theorem addComment_spec_witness :
    addComment (getDefaultState 0) "p1" "   " = getDefaultState 0 ∧
    commentsAt (addComment (getDefaultState 0) "p1" " hi ") "p1"
      = commentsAt (getDefaultState 0) "p1" ++ ["hi"] := by
  constructor
  · exact (addComment_spec (getDefaultState 0) "p1" "   ").1 (by decide)
  · have h := (addComment_spec (getDefaultState 0) "p1" " hi ").2 (by decide)
    have ht : jsTrim " hi " = "hi" := by decide
    rw [ht] at h
    exact h

/-- C3: a second `submitAssessment` call (the auto-submit timer racing a
manual submit after the first call has already run) is an exact no-op on the
session and the persisted state, leaves the XP unchanged (no double bonus),
and after any first call the session deadline is cleared, so the
running-to-submitted transition happens at most once. -/
theorem submitAssessment_idempotent (sess : Session) (st : LearnerState)
    (questions : List Question) (answers : Answers) (t1 t2 : Int) :
    submitAssessment (submitAssessment sess st questions answers t1).1
        (submitAssessment sess st questions answers t1).2 questions answers t2
      = submitAssessment sess st questions answers t1 ∧
    (submitAssessment (submitAssessment sess st questions answers t1).1
        (submitAssessment sess st questions answers t1).2 questions answers t2).2.xp
      = (submitAssessment sess st questions answers t1).2.xp ∧
    (submitAssessment sess st questions answers t1).1.endsAt = none := by
  obtain ⟨e⟩ := sess
  cases e with
  | none => exact ⟨rfl, rfl, rfl⟩
  | some d => exact ⟨rfl, rfl, rfl⟩

/-- C5: assessment submission scores
`round(100 × correctCount / max(1, questionCount))` (well defined — an empty
question set scores 0, with the denominator floored at 1), stores that score
in `assessment.lastScore`, and adds `round(scorePercent / 100 × 80)` bonus XP;
a 75% score yields exactly 60 bonus XP. -/
theorem submitAssessment_scoring (sess : Session) (st : LearnerState)
    (questions : List Question) (answers : Answers) (now e : Int)
    (h : sess.endsAt = some e) :
    (submitAssessment sess st questions answers now).2.assessment.lastScore
      = some (scorePct questions answers) ∧
    scorePct questions answers
      = jsRound ((100 * (correctCount questions answers : ℚ)) / (max 1 questions.length : ℚ)) ∧
    (submitAssessment sess st questions answers now).2.xp
      = st.xp + jsRound (((scorePct questions answers : ℚ) / 100) * 80) ∧
    scorePct [] answers = 0 ∧
    (scorePct questions answers = 75 →
      jsRound (((scorePct questions answers : ℚ) / 100) * 80) = 60) := by
  obtain ⟨e'⟩ := sess
  cases h
  refine ⟨rfl, ?_, ?_, ?_, ?_⟩
  · unfold scorePct
    congr 1
    ring
  · simp [submitAssessment, recordAssessmentResult, assessmentBonus, jsOr0_eq]
  · have hc : correctCount [] answers = 0 := rfl
    unfold scorePct
    rw [hc]
    norm_num [jsRound]
  · intro h75
    rw [h75]
    norm_num [jsRound]

/-- C5 witness: a running session (`endsAt = 60000`), the default state, and
3 correct answers out of 4 questions: the stored score is 75 and the XP goes
from 120 to 180 (+60 bonus). -/
theorem submitAssessment_scoring_witness :
    (submitAssessment { endsAt := some 60000 } (getDefaultState 0)
        [⟨"a", 2⟩, ⟨"b", 1⟩, ⟨"c", 0⟩, ⟨"d", 3⟩]
        [("a", some 2), ("b", some 1), ("c", some 0)] 5).2.assessment.lastScore = some 75 ∧
    (submitAssessment { endsAt := some 60000 } (getDefaultState 0)
        [⟨"a", 2⟩, ⟨"b", 1⟩, ⟨"c", 0⟩, ⟨"d", 3⟩]
        [("a", some 2), ("b", some 1), ("c", some 0)] 5).2.xp = 180 := by
  have h := submitAssessment_scoring { endsAt := some 60000 } (getDefaultState 0)
    [⟨"a", 2⟩, ⟨"b", 1⟩, ⟨"c", 0⟩, ⟨"d", 3⟩]
    [("a", some 2), ("b", some 1), ("c", some 0)] 5 60000 rfl
  have hc : correctCount [⟨"a", 2⟩, ⟨"b", 1⟩, ⟨"c", 0⟩, ⟨"d", 3⟩]
      [("a", some 2), ("b", some 1), ("c", some 0)] = 3 := rfl
  have hs : scorePct [⟨"a", 2⟩, ⟨"b", 1⟩, ⟨"c", 0⟩, ⟨"d", 3⟩]
      [("a", some 2), ("b", some 1), ("c", some 0)] = 75 := by
    unfold scorePct
    rw [hc]
    norm_num [jsRound]
  constructor
  · rw [h.1, hs]
  · rw [h.2.2.1, hs]
    norm_num [jsRound, getDefaultState]

/-- The assessment bonus is never negative (the score is a rounded ratio of
nonnegative quantities). -/
theorem assessmentBonus_nonneg (questions : List Question) (answers : Answers) :
    0 ≤ assessmentBonus questions answers := by
  have hscore : (0 : Int) ≤ scorePct questions answers := by
    unfold scorePct jsRound
    rw [Int.le_floor]
    have hnum : (0 : ℚ) ≤ (correctCount questions answers : ℚ) := by positivity
    have hden : (0 : ℚ) < (max 1 questions.length : ℚ) := by
      have : (1 : ℕ) ≤ max 1 questions.length := le_max_left _ _
      exact_mod_cast Nat.lt_of_lt_of_le Nat.zero_lt_one this
    have : (0 : ℚ) ≤ (correctCount questions answers : ℚ) / (max 1 questions.length : ℚ) * 100 := by
      positivity
    push_cast
    linarith
  unfold assessmentBonus jsRound
  rw [Int.le_floor]
  have : (0 : ℚ) ≤ (scorePct questions answers : ℚ) := by exact_mod_cast hscore
  have : (0 : ℚ) ≤ (scorePct questions answers : ℚ) / 100 * 80 := by positivity
  push_cast
  linarith

/-- C7: every engine operation — lesson completion, bonus XP grant, roadmap
toggle, MCQ answer, assessment result, draft save, like, comment — leaves the
`xp` field greater than or equal to its input value; none of them can
decrease XP. -/
theorem applyOp_xp_monotone (op : Op) (st : LearnerState) :
    st.xp ≤ (applyOp op st).xp := by
  cases op with
  | lesson courseId =>
    simp [applyOp, completeLessonStep, jsOr0_eq]
  | bonus =>
    simp [applyOp, grantBonusXp, jsOr0_eq]
  | toggleStep courseId stepId =>
    simp only [applyOp, toggleRoadmapStep, jsOr0_eq]
    split <;> simp
  | mcq chosenIndex q =>
    simp only [applyOp, answerMcq]
    split <;> simp [jsOr0_eq]
  | assess questions answers now =>
    simp only [applyOp, recordAssessmentResult, jsOr0_eq]
    have := assessmentBonus_nonneg questions answers
    omega
  | draft questionId text =>
    simp [applyOp, saveCodingDraft]
  | like postId =>
    simp [applyOp, toggleLike]
  | comment postId text =>
    simp only [applyOp, addComment]
    split <;> simp

/-- C6: for nonnegative XP, `computeRank` names one of the four fixed tiers,
the name follows the interval table Beginner [0,300), Intermediate [300,700),
Advanced [700,1200), Pro [1200,∞), and the tier position is monotonically
non-decreasing in the XP total. -/
theorem computeRank_tiers (x y : Int) (hx : 0 ≤ x) (hxy : x ≤ y) :
    ((computeRank x).current = "Beginner" ∨ (computeRank x).current = "Intermediate" ∨
      (computeRank x).current = "Advanced" ∨ (computeRank x).current = "Pro") ∧
    (x < 300 → (computeRank x).current = "Beginner") ∧
    (300 ≤ x → x < 700 → (computeRank x).current = "Intermediate") ∧
    (700 ≤ x → x < 1200 → (computeRank x).current = "Advanced") ∧
    (1200 ≤ x → (computeRank x).current = "Pro") ∧
    tierIdx (computeRank x).current ≤ tierIdx (computeRank y).current := by
  refine ⟨?_, ?_, ?_, ?_, ?_, ?_⟩
  · rw [computeRank_current]
    split_ifs <;> simp
  · intro h
    rw [computeRank_current]
    have h12 : ¬(1200 ≤ x) := by omega
    have h7 : ¬(700 ≤ x) := by omega
    have h3 : ¬(300 ≤ x) := by omega
    simp [h12, h7, h3]
  · intro h h'
    rw [computeRank_current]
    have h12 : ¬(1200 ≤ x) := by omega
    have h7 : ¬(700 ≤ x) := by omega
    simp [h12, h7, h]
  · intro h h'
    rw [computeRank_current]
    have h12 : ¬(1200 ≤ x) := by omega
    simp [h12, h]
  · intro h
    rw [computeRank_current]
    simp [h]
  · rw [tierIdx_computeRank, tierIdx_computeRank]
    split_ifs <;> omega

/-- C6 witness: 100 XP is a Beginner, 1300 XP is a Pro, and the tier position
at 100 XP is at or below the one at 1300 XP. -/
theorem computeRank_tiers_witness :
    (computeRank 100).current = "Beginner" ∧ (computeRank 1300).current = "Pro" ∧
    tierIdx (computeRank 100).current ≤ tierIdx (computeRank 1300).current := by
  have h := computeRank_tiers 100 1300 (by decide) (by decide)
  have h' := computeRank_tiers 1300 1300 (by decide) (by decide)
  exact ⟨h.2.1 (by decide), h'.2.2.2.2.1 (by decide), h.2.2.2.2.2⟩

/-- C9: on a negative XP total no row of the `levels` table passes the
`xp >= l.min` test, so the reversed-table search misses and `computeRank`
falls back to the Beginner row, with the progress percentage clamped up
to 0 — a well-formed result. -/
theorem computeRank_negative (x : Int) (h : x < 0) :
    levels.reverse.find? (fun l => decide (l.lmin ≤ x)) = none ∧
    computeRank x = { current := "Beginner", next := some 300, rmin := 0, pct := 0 } := by
  have h0 : ¬((0 : Int) ≤ x) := by omega
  have h3 : ¬((300 : Int) ≤ x) := by omega
  have h7 : ¬((700 : Int) ≤ x) := by omega
  have h12 : ¬((1200 : Int) ≤ x) := by omega
  have hfind : levels.reverse.find? (fun l => decide (l.lmin ≤ x)) = none := by
    simp [levels, List.find?, h0, h3, h7, h12]
  refine ⟨hfind, ?_⟩
  unfold computeRank
  rw [hfind]
  have hx : (x : ℚ) < 0 := by exact_mod_cast h
  have hv : (x : ℚ) / 300 * 100 ≤ 0 := by
    have heq : (x : ℚ) / 300 * 100 = (x : ℚ) * (1 / 3) := by ring
    rw [heq]
    linarith
  have hpct : clamp ((x : ℚ) / 300 * 100) 0 100 = 0 := by
    unfold clamp
    rw [min_eq_right (le_trans hv (by norm_num)), max_eq_left hv]
  simp [hpct]

/-- C9 witness: `computeRank (-5)` is the Beginner fallback with progress 0,
and the table search returns nothing. -/
theorem computeRank_negative_witness :
    levels.reverse.find? (fun l => decide (l.lmin ≤ (-5 : Int))) = none ∧
    computeRank (-5) = { current := "Beginner", next := some 300, rmin := 0, pct := 0 } :=
  computeRank_negative (-5) (by decide)

/-- C1: `getState` returns `getDefaultState()` when nothing is stored; on a
stored document it keeps every top-level default value whose key the document
lacks, lets every stored top-level value override the default, and merges the
`streak` sub-object key by key (stored `count`/`lastDate` override, missing
ones keep the defaults 1 and today); a document missing every
newly-introduced field yields exactly the full default shape. -/
theorem getState_merge (today : Int) (doc : StoredDoc) :
    getState today none = (getDefaultState today).toMerged ∧
    getState today
        (some { streak := none, xp := none, courseProgress := none,
                selectedCourseId := none, roadmapDone := none, courseRoadmapDone := none,
                assessment := none, codingDrafts := none, community := none })
      = (getDefaultState today).toMerged ∧
    (getState today (some doc)).xp = doc.xp.getD 120 ∧
    (getState today (some doc)).courseProgress = doc.courseProgress.getD [] ∧
    (getState today (some doc)).selectedCourseId = doc.selectedCourseId.getD none ∧
    (getState today (some doc)).roadmapDone = doc.roadmapDone.getD [] ∧
    (getState today (some doc)).courseRoadmapDone = doc.courseRoadmapDone.getD [] ∧
    (getState today (some doc)).assessment
      = doc.assessment.getD { lastScore := none, lastTakenAt := none } ∧
    (getState today (some doc)).codingDrafts = doc.codingDrafts.getD [] ∧
    (getState today (some doc)).community
      = doc.community.getD { likes := some [], comments := some [] } ∧
    (getState today (some doc)).streak.count
      = ((doc.streak.getD { count := none, lastDate := none }).count).getD 1 ∧
    (getState today (some doc)).streak.lastDate
      = ((doc.streak.getD { count := none, lastDate := none }).lastDate).getD (some today) :=
  ⟨rfl, rfl, rfl, rfl, rfl, rfl, rfl, rfl, rfl, rfl, rfl, rfl⟩

/-- C10: the one-level deep merge in `getState` applies only to `streak`: a
stored `community`, `assessment` or `courseProgress` value replaces the
default wholesale, so a stored community object lacking `likes` leaves
`likes` missing in the result even though the default community has it. -/
theorem getState_shallow (today : Int) (doc : StoredDoc) (c : StoredCommunity)
    (a : AssessmentV) (m : List (String × Int)) :
    (doc.community = some c → (getState today (some doc)).community = c) ∧
    (doc.assessment = some a → (getState today (some doc)).assessment = a) ∧
    (doc.courseProgress = some m → (getState today (some doc)).courseProgress = m) ∧
    (doc.community = some { likes := none, comments := some [] } →
      (getState today (some doc)).community.likes = none) ∧
    (getDefaultState today).toMerged.community.likes = some [] := by
  refine ⟨?_, ?_, ?_, ?_, rfl⟩ <;> intro h <;> simp [getState, h]

/-- C10 witness: a stored document whose community is `{comments: []}` (no
`likes`) merges to a state with no `community.likes`, while the default shape
has `likes = {}`. -/
theorem getState_shallow_witness :
    (getState 0
          (some { streak := none, xp := none, courseProgress := none,
                  selectedCourseId := none, roadmapDone := none, courseRoadmapDone := none,
                  assessment := none, codingDrafts := none,
                  community := some { likes := none, comments := some [] } })).community.likes
        = none ∧
    (getDefaultState 0).toMerged.community.likes = some [] := by
  have h := getState_shallow 0
    { streak := none, xp := none, courseProgress := none, selectedCourseId := none,
      roadmapDone := none, courseRoadmapDone := none, assessment := none,
      codingDrafts := none, community := some { likes := none, comments := some [] } }
    { likes := none, comments := some [] } { lastScore := none, lastTakenAt := none } []
  exact ⟨h.2.2.2.1 rfl, h.2.2.2.2⟩
